import Mathlib

/-!
# Verification of the movies CRUD service (three variants)

Shallow embedding of the three request-handler files of the repository:

* `server.js`        — baseline variant: MongoDB only, no cache (handlers suffixed `A`);
* `src/unnamed/part_000` — Redis list-cache variant: only the collection-level
  key `'movies'` is cached, raw documents (handlers suffixed `B`);
* `redisServer.js`   — Redis per-document variant: list key `'movies'` plus
  per-ID keys `movie:<id>`, simplified projections (handlers suffixed `C`).

Modelling conventions:

* A MongoDB `ObjectId` is modelled as its 24-character hex string; the
  `new ObjectId(s)` constructor is `newObjectId`, which throws (returns
  `.error`) exactly when the string is not 24 hex characters, matching the
  BSON library's `BSONError`.
* Cache values are stored structurally (the parsed form of the JSON the code
  writes); `JSON.stringify` / `JSON.parse` is a bijection on the plain
  objects this program serializes, so string round-trips are dropped.
* The per-ID Redis keys `movie:<id>` are keyed by the raw request-parameter
  string `<id>`, exactly as the source interpolates `req.params.id` before
  any ObjectId validation.
* Redis operations may fail; each handler takes the relevant failure flags
  as explicit booleans (`getFails`, `setFails`, `delFails`), standing for the
  `err` argument of the node-redis callback being non-null.  When a cache
  `get` fails the source does `return next(err)` and the Express error
  handler renders the error page with status `err.status || 500`; a failing
  `set`/`del` is only logged.
* Each handler result records the number of MongoDB collection operations it
  performed (`storeQueries`), so that "without a store round-trip" is a
  statement about the code, not about timing.
* In `redisServer.js`'s GET-by-ID handler, `new ObjectId` runs inside the
  async redis callback, outside the reach of the surrounding `try`; a parse
  failure there is an unhandled promise rejection and no response is sent.
  This is modelled by the distinguished response `unhandledRejection` with
  status 0.
-/

/-- A character is a hexadecimal digit (`0-9`, `a-f`, `A-F`). -/
def isHexDigit (c : Char) : Bool :=
  c.isDigit || (97 ≤ c.toNat && c.toNat ≤ 102) || (65 ≤ c.toNat && c.toNat ≤ 70)

/-- The strings accepted by the BSON `ObjectId` constructor: 24 hex characters. -/
def isValidObjectId (s : String) : Bool :=
  s.length == 24 && s.data.all isHexDigit

/-- The message of the `BSONError` thrown by `new ObjectId` on a bad input. -/
def bsonErrMsg : String :=
  "input must be a 24 character hex string, 12 byte Uint8Array, or an integer"

/-- `new ObjectId(s)`: returns the id, or throws `BSONError` (modelled as
`.error`) when `s` is not parseable as an ObjectId. -/
def newObjectId (s : String) : Except String String :=
  if isValidObjectId s then .ok s else .error bsonErrMsg

/-- A document of the `movies` collection, restricted to the fields this
program reads: `_id` (as hex string), `name`, `title`. -/
structure Movie where
  oid : String
  name : String
  title : String
deriving Repr, DecidableEq

/-- The simplified projection `{id, name, title}` produced by
`simplifyMovie` in `redisServer.js`. -/
structure SMovie where
  id : String
  name : String
  title : String
deriving Repr, DecidableEq

/-- `simplifyMovie` from `redisServer.js`. -/
def simplifyMovie (m : Movie) : SMovie :=
  ⟨m.oid, m.name, m.title⟩

/-- The `movies` collection, in natural (insertion) order. -/
abbrev Store := List Movie

/-- `collection.find({}).limit(10).toArray()`. -/
def findLimit10 (s : Store) : List Movie :=
  s.take 10

/-- `collection.findOne({_id})`: the first document whose `_id` matches. -/
def findOne (s : Store) (oid : String) : Option Movie :=
  s.find? (fun m => m.oid = oid)

/-- The driver's summary returned by `updateOne`. -/
structure UpdateResult where
  matchedCount : Nat
  modifiedCount : Nat
deriving Repr, DecidableEq

/-- The driver's summary returned by `deleteOne`. -/
structure DeleteResult where
  deletedCount : Nat
deriving Repr, DecidableEq

/-- `collection.updateOne({_id}, {$set: {title}})`: rewrites the title of
the first matching document; `modifiedCount` is 0 when the stored title
already equals the new one. -/
def updateOneTitle (s : Store) (oid title : String) : Store × UpdateResult :=
  match s with
  | [] => ([], ⟨0, 0⟩)
  | m :: rest =>
    if m.oid = oid then
      ({ m with title := title } :: rest, ⟨1, if m.title = title then 0 else 1⟩)
    else
      let (rest', r) := updateOneTitle rest oid title
      (m :: rest', r)

/-- `collection.deleteOne({_id})`: removes the first matching document. -/
def deleteOne (s : Store) (oid : String) : Store × DeleteResult :=
  match s with
  | [] => ([], ⟨0⟩)
  | m :: rest =>
    if m.oid = oid then (rest, ⟨1⟩)
    else
      let (rest', r) := deleteOne rest oid
      (m :: rest', r)

/-- The body of an HTTP response, one constructor per shape the handlers
send. -/
inductive Body where
  /-- raw document array (`server.js`, `part_000` list). -/
  | rawMovies (l : List Movie)
  /-- simplified document array (`redisServer.js` list). -/
  | sMovies (l : List SMovie)
  /-- single raw document. -/
  | rawMovie (m : Movie)
  /-- single simplified document. -/
  | sMovie (m : SMovie)
  /-- `updateOne` result summary. -/
  | updateRes (r : UpdateResult)
  /-- `deleteOne` result summary. -/
  | deleteRes (r : DeleteResult)
  /-- a plain text body (`"Not found"`). -/
  | text (s : String)
  /-- JSON `{error: message}` from a `catch` block. -/
  | errMsg (s : String)
  /-- the rendered pug error page of the Express error handler. -/
  | errorPage
  /-- no response was ever sent: an exception escaped into an async
  callback (unhandled promise rejection). -/
  | unhandledRejection (s : String)
deriving Repr, DecidableEq

/-- An HTTP response: status code and body.  Status 0 marks the
no-response-sent case. -/
structure Resp where
  status : Nat
  body : Body
deriving Repr, DecidableEq

/-! ## Variant A: `server.js` (no cache) -/

/-- Result of a variant-A handler: the response, the store afterwards, and
how many MongoDB collection operations ran. -/
structure HResA where
  resp : Resp
  store : Store
  storeQueries : Nat
deriving Repr, DecidableEq

/-- `server.js` `router.get("/")`. -/
def getAllA (store : Store) : HResA :=
  ⟨⟨200, .rawMovies (findLimit10 store)⟩, store, 1⟩

/-- `server.js` `router.get("/:id")`. -/
def getByIdA (store : Store) (idStr : String) : HResA :=
  match newObjectId idStr with
  | .error e => ⟨⟨500, .errMsg e⟩, store, 0⟩
  | .ok oid =>
    match findOne store oid with
    | none => ⟨⟨404, .text "Not found"⟩, store, 1⟩
    | some m => ⟨⟨200, .rawMovie m⟩, store, 1⟩

/-- `server.js` `router.patch("/:id")`. -/
def patchA (store : Store) (idStr title : String) : HResA :=
  match newObjectId idStr with
  | .error e => ⟨⟨500, .errMsg e⟩, store, 0⟩
  | .ok oid =>
    let (store', r) := updateOneTitle store oid title
    ⟨⟨200, .updateRes r⟩, store', 1⟩

/-- `server.js` `router.delete("/:id")`. -/
def deleteA (store : Store) (idStr : String) : HResA :=
  match newObjectId idStr with
  | .error e => ⟨⟨500, .errMsg e⟩, store, 0⟩
  | .ok oid =>
    let (store', r) := deleteOne store oid
    ⟨⟨200, .deleteRes r⟩, store', 1⟩

/-! ## Variant B: `src/unnamed/part_000` (Redis list cache, raw documents) -/

/-- State of variant B: the store plus the single Redis key `'movies'`,
holding the serialized raw result array when set. -/
structure StateB where
  store : Store
  listCache : Option (List Movie)
deriving Repr, DecidableEq

/-- Result of a variant-B handler. -/
structure HResB where
  resp : Resp
  state : StateB
  storeQueries : Nat
deriving Repr, DecidableEq

/-- `part_000` `router.get("/")`: try `redisClient.get('movies')`; on error
`next(err)` (error page, status 500); on hit serve the cached array; on miss
query Mongo with limit 10, cache the array (a failing `set` is only logged),
and serve it. -/
def getAllB (st : StateB) (getFails setFails : Bool) : HResB :=
  if getFails then
    ⟨⟨500, .errorPage⟩, st, 0⟩
  else
    match st.listCache with
    | some cached => ⟨⟨200, .rawMovies cached⟩, st, 0⟩
    | none =>
      let results := findLimit10 st.store
      let st' := if setFails then st else { st with listCache := some results }
      ⟨⟨200, .rawMovies results⟩, st', 1⟩

/-- `part_000` `router.get("/:id")`: no caching at all; parse the id
(`catch` → 500), `findOne`, 404 when absent. -/
def getByIdB (st : StateB) (idStr : String) : HResB :=
  match newObjectId idStr with
  | .error e => ⟨⟨500, .errMsg e⟩, st, 0⟩
  | .ok oid =>
    match findOne st.store oid with
    | none => ⟨⟨404, .text "Not found"⟩, st, 1⟩
    | some m => ⟨⟨200, .rawMovie m⟩, st, 1⟩

/-- `part_000` `router.patch("/:id")`: `updateOne`, then unconditionally
`redisClient.del('movies')` (a failing `del` is only logged), respond 200
with the driver summary. -/
def patchB (st : StateB) (idStr title : String) (delFails : Bool) : HResB :=
  match newObjectId idStr with
  | .error e => ⟨⟨500, .errMsg e⟩, st, 0⟩
  | .ok oid =>
    let (store', r) := updateOneTitle st.store oid title
    let lc := if delFails then st.listCache else none
    ⟨⟨200, .updateRes r⟩, ⟨store', lc⟩, 1⟩

/-- `part_000` `router.delete("/:id")`: `deleteOne`, then unconditionally
`redisClient.del('movies')`, respond 200 with the driver summary. -/
def deleteB (st : StateB) (idStr : String) (delFails : Bool) : HResB :=
  match newObjectId idStr with
  | .error e => ⟨⟨500, .errMsg e⟩, st, 0⟩
  | .ok oid =>
    let (store', r) := deleteOne st.store oid
    let lc := if delFails then st.listCache else none
    ⟨⟨200, .deleteRes r⟩, ⟨store', lc⟩, 1⟩

/-! ## Variant C: `redisServer.js` (Redis list + per-ID cache, simplified) -/

/-- The per-ID half of the Redis keyspace: an association list from the raw
`<id>` part of the key `movie:<id>` to the cached simplified document. -/
abbrev IdCache := List (String × SMovie)

/-- Redis `GET movie:<k>`. -/
def cacheGet (c : IdCache) (k : String) : Option SMovie :=
  (c.find? (fun p => p.1 = k)).map (fun p => p.2)

/-- Redis `SET movie:<k>`: overwrite or insert. -/
def cacheSet (c : IdCache) (k : String) (v : SMovie) : IdCache :=
  (k, v) :: c.filter (fun p => p.1 ≠ k)

/-- Redis `DEL movie:<k>`. -/
def cacheDel (c : IdCache) (k : String) : IdCache :=
  c.filter (fun p => p.1 ≠ k)

/-- State of variant C: the store, the list key `'movies'` (simplified
array), and the per-ID keys `movie:<id>`. -/
structure StateC where
  store : Store
  listCache : Option (List SMovie)
  idCache : IdCache
deriving Repr, DecidableEq

/-- Result of a variant-C handler. -/
structure HResC where
  resp : Resp
  state : StateC
  storeQueries : Nat
deriving Repr, DecidableEq

/-- `redisServer.js` `router.get("/")`: like variant B's list handler but the
cached/served array is of `simplifyMovie` projections. -/
def getAllC (st : StateC) (getFails setFails : Bool) : HResC :=
  if getFails then
    ⟨⟨500, .errorPage⟩, st, 0⟩
  else
    match st.listCache with
    | some cached => ⟨⟨200, .sMovies cached⟩, st, 0⟩
    | none =>
      let simplified := (findLimit10 st.store).map simplifyMovie
      let st' := if setFails then st else { st with listCache := some simplified }
      ⟨⟨200, .sMovies simplified⟩, st', 1⟩

/-- `redisServer.js` `router.get("/:id")`: `redisClient.get` on
`movie:<id>` (error → `next(err)`, error page 500); on hit serve the cached
projection; on miss `new ObjectId` runs inside the async redis callback, so
a parse failure there escapes the handler's `try` as an unhandled promise
rejection and no response is sent; otherwise `findOne`, 404 when absent,
else cache (a failing `set` is only logged) and serve the projection. -/
def getByIdC (st : StateC) (idStr : String) (getFails setFails : Bool) : HResC :=
  if getFails then
    ⟨⟨500, .errorPage⟩, st, 0⟩
  else
    match cacheGet st.idCache idStr with
    | some cached => ⟨⟨200, .sMovie cached⟩, st, 0⟩
    | none =>
      match newObjectId idStr with
      | .error e => ⟨⟨0, .unhandledRejection e⟩, st, 0⟩
      | .ok oid =>
        match findOne st.store oid with
        | none => ⟨⟨404, .text "Not found"⟩, st, 1⟩
        | some m =>
          let sm := simplifyMovie m
          let st' := if setFails then st
                     else { st with idCache := cacheSet st.idCache idStr sm }
          ⟨⟨200, .sMovie sm⟩, st', 1⟩

/-- `redisServer.js` `router.patch("/:id")`: `updateOne`; when
`matchedCount > 0`, re-fetch the document with `findOne`, write the fresh
projection through to `movie:<id>` (`SET`, not `DEL`; a failure is only
logged) and `DEL 'movies'`; respond 200 with the driver summary.  When no
document matched, the cache is untouched.  (`simplifyMovie(null)` would
throw inside the handler's `try`, hence the 500 branch; it is unreachable
when ids are unique.) -/
def patchC (st : StateC) (idStr title : String) (setFails delFails : Bool) : HResC :=
  match newObjectId idStr with
  | .error e => ⟨⟨500, .errMsg e⟩, st, 0⟩
  | .ok oid =>
    let (store', r) := updateOneTitle st.store oid title
    if r.matchedCount > 0 then
      match findOne store' oid with
      | none =>
        ⟨⟨500, .errMsg "Cannot read properties of null"⟩, { st with store := store' }, 2⟩
      | some updated =>
        let sm := simplifyMovie updated
        let idc := if setFails then st.idCache else cacheSet st.idCache idStr sm
        let lc := if delFails then st.listCache else none
        ⟨⟨200, .updateRes r⟩, ⟨store', lc, idc⟩, 2⟩
    else
      ⟨⟨200, .updateRes r⟩, { st with store := store' }, 1⟩

/-- `redisServer.js` `router.delete("/:id")`: `deleteOne`, then
unconditionally `DEL movie:<id>` and `DEL 'movies'` (failures only logged),
respond 200 with the driver summary. -/
def deleteC (st : StateC) (idStr : String) (delIdFails delListFails : Bool) : HResC :=
  match newObjectId idStr with
  | .error e => ⟨⟨500, .errMsg e⟩, st, 0⟩
  | .ok oid =>
    let (store', r) := deleteOne st.store oid
    let idc := if delIdFails then st.idCache else cacheDel st.idCache idStr
    let lc := if delListFails then st.listCache else none
    ⟨⟨200, .deleteRes r⟩, ⟨store', lc, idc⟩, 1⟩

/-! ## Concrete sample data (used by witnesses and counterexamples) -/

/-- A valid ObjectId string. -/
def idA : String := "aaaaaaaaaaaaaaaaaaaaaaaa"

/-- A second valid ObjectId string. -/
def idB : String := "bbbbbbbbbbbbbbbbbbbbbbbb"

/-- A sample movie with id `idA`. -/
def mA : Movie := ⟨idA, "Alpha", "Old Title"⟩

/-- A sample movie with id `idB`. -/
def mB : Movie := ⟨idB, "Beta", "Second Title"⟩

/-- A store with twelve movies (ids distinct from `idA`/`idB`), for
exercising the limit-10 list path. -/
def bigStore : Store :=
  (List.range 12).map
    (fun i => ⟨"00000000000000000000000" ++ toString i, "N" ++ toString i, "T" ++ toString i⟩)

/-! ## Reachable states

States reachable from a cold (empty) cache by any sequence of handler
invocations — with arbitrary request arguments and Redis failure flags —
interleaved with arbitrary external changes to the MongoDB store (the cache
is only ever written by the handlers modelled here). -/

/-- Reachability for variant B (`part_000`). -/
inductive ReachB : StateB → Prop where
  | init (store : Store) : ReachB ⟨store, none⟩
  | stepGetAll (st : StateB) (gf sf : Bool) :
      ReachB st → ReachB (getAllB st gf sf).state
  | stepGetById (st : StateB) (id : String) :
      ReachB st → ReachB (getByIdB st id).state
  | stepPatch (st : StateB) (id t : String) (df : Bool) :
      ReachB st → ReachB (patchB st id t df).state
  | stepDelete (st : StateB) (id : String) (df : Bool) :
      ReachB st → ReachB (deleteB st id df).state
  | externalStore (st : StateB) (s : Store) :
      ReachB st → ReachB ⟨s, st.listCache⟩

/-- Reachability for variant C (`redisServer.js`). -/
inductive ReachC : StateC → Prop where
  | init (store : Store) : ReachC ⟨store, none, []⟩
  | stepGetAll (st : StateC) (gf sf : Bool) :
      ReachC st → ReachC (getAllC st gf sf).state
  | stepGetById (st : StateC) (id : String) (gf sf : Bool) :
      ReachC st → ReachC (getByIdC st id gf sf).state
  | stepPatch (st : StateC) (id t : String) (sf df : Bool) :
      ReachC st → ReachC (patchC st id t sf df).state
  | stepDelete (st : StateC) (id : String) (df1 df2 : Bool) :
      ReachC st → ReachC (deleteC st id df1 df2).state
  | externalStore (st : StateC) (s : Store) :
      ReachC st → ReachC ⟨s, st.listCache, st.idCache⟩

/-! ## Lemmas about the store primitives -/

theorem newObjectId_ok (s : String) (h : isValidObjectId s = true) :
    newObjectId s = .ok s := by
  simp [newObjectId, h]

theorem newObjectId_error (s : String) (h : isValidObjectId s = false) :
    newObjectId s = .error bsonErrMsg := by
  simp [newObjectId, h]

theorem findOne_cons (m : Movie) (rest : Store) (oid : String) :
    findOne (m :: rest) oid = if m.oid = oid then some m else findOne rest oid := by
  by_cases h : m.oid = oid <;> simp [findOne, List.find?_cons, h]

theorem updateOneTitle_cons (m : Movie) (rest : Store) (oid t : String) :
    updateOneTitle (m :: rest) oid t =
      if m.oid = oid then
        ({ m with title := t } :: rest, ⟨1, if m.title = t then 0 else 1⟩)
      else
        (m :: (updateOneTitle rest oid t).1, (updateOneTitle rest oid t).2) := by
  by_cases h : m.oid = oid <;> simp [updateOneTitle, h]

theorem deleteOne_cons (m : Movie) (rest : Store) (oid : String) :
    deleteOne (m :: rest) oid =
      if m.oid = oid then (rest, ⟨1⟩)
      else (m :: (deleteOne rest oid).1, (deleteOne rest oid).2) := by
  by_cases h : m.oid = oid <;> simp [deleteOne, h]

/-- `updateOne` on an absent id leaves the store alone and reports
`matchedCount = modifiedCount = 0`. -/
theorem updateOneTitle_not_found (s : Store) (oid t : String)
    (h : findOne s oid = none) : updateOneTitle s oid t = (s, ⟨0, 0⟩) := by
  induction s with
  | nil => rfl
  | cons m rest ih =>
    rw [findOne_cons] at h
    by_cases hc : m.oid = oid
    · rw [if_pos hc] at h; exact absurd h (by simp)
    · rw [if_neg hc] at h
      rw [updateOneTitle_cons, if_neg hc, ih h]

/-- `deleteOne` on an absent id leaves the store alone and reports
`deletedCount = 0`. -/
theorem deleteOne_not_found (s : Store) (oid : String)
    (h : findOne s oid = none) : deleteOne s oid = (s, ⟨0⟩) := by
  induction s with
  | nil => rfl
  | cons m rest ih =>
    rw [findOne_cons] at h
    by_cases hc : m.oid = oid
    · rw [if_pos hc] at h; exact absurd h (by simp)
    · rw [if_neg hc] at h
      rw [deleteOne_cons, if_neg hc, ih h]

/-- After `updateOne` on a present id, the id matches exactly one document
and `findOne` sees the new title. -/
theorem findOne_updateOneTitle (s : Store) (oid t : String) (m : Movie)
    (h : findOne s oid = some m) :
    (updateOneTitle s oid t).2.matchedCount = 1 ∧
      findOne (updateOneTitle s oid t).1 oid = some { m with title := t } := by
  induction s with
  | nil => exact absurd h (by simp [findOne])
  | cons hd rest ih =>
    rw [findOne_cons] at h
    by_cases hc : hd.oid = oid
    · rw [if_pos hc] at h
      injection h with h; subst h
      rw [updateOneTitle_cons, if_pos hc]
      refine ⟨rfl, ?_⟩
      rw [findOne_cons]
      simp [hc]
    · rw [if_neg hc] at h
      rw [updateOneTitle_cons, if_neg hc]
      obtain ⟨h1, h2⟩ := ih h
      refine ⟨h1, ?_⟩
      rw [findOne_cons, if_neg hc]
      exact h2

/-- `findOne` misses when the id is not among the stored ids. -/
theorem findOne_eq_none_of_not_mem (s : Store) (oid : String)
    (h : oid ∉ s.map Movie.oid) : findOne s oid = none := by
  induction s with
  | nil => rfl
  | cons m rest ih =>
    rw [List.map_cons, List.mem_cons, not_or] at h
    rw [findOne_cons, if_neg (fun e => h.1 e.symm)]
    exact ih h.2

/-- When stored ids are unique, `findOne` after `deleteOne` of the same id
misses. -/
theorem findOne_deleteOne (s : Store) (oid : String)
    (h : (s.map Movie.oid).Nodup) : findOne (deleteOne s oid).1 oid = none := by
  induction s with
  | nil => rfl
  | cons m rest ih =>
    rw [List.map_cons, List.nodup_cons] at h
    by_cases hc : m.oid = oid
    · rw [deleteOne_cons, if_pos hc]
      exact findOne_eq_none_of_not_mem rest oid (hc ▸ h.1)
    · rw [deleteOne_cons, if_neg hc]
      rw [findOne_cons, if_neg hc]
      exact ih h.2

/-! ## Lemmas about the per-ID cache primitives -/

theorem cacheGet_cacheSet_self (c : IdCache) (k : String) (v : SMovie) :
    cacheGet (cacheSet c k v) k = some v := by
  simp [cacheGet, cacheSet, List.find?_cons]

theorem cacheGet_cacheDel_self (c : IdCache) (k : String) :
    cacheGet (cacheDel c k) k = none := by
  rw [cacheGet, Option.map_eq_none', List.find?_eq_none]
  intro p hp
  have h2 := List.of_mem_filter hp
  simp at h2 ⊢
  exact h2

/-! ## Lemmas about handler state transitions (for the reachability
invariant) -/

theorem getAllB_state_listCache (st : StateB) (gf sf : Bool) :
    (getAllB st gf sf).state.listCache = st.listCache ∨
      (getAllB st gf sf).state.listCache = some (findLimit10 st.store) := by
  cases gf <;> cases sf <;> cases h : st.listCache <;> simp [getAllB, h]

theorem getByIdB_state (st : StateB) (id : String) :
    (getByIdB st id).state = st := by
  cases h : newObjectId id with
  | error e => simp [getByIdB, h]
  | ok oid => cases hf : findOne st.store oid <;> simp [getByIdB, h, hf]

theorem patchB_state_listCache (st : StateB) (id t : String) (df : Bool) :
    (patchB st id t df).state.listCache = st.listCache ∨
      (patchB st id t df).state.listCache = none := by
  cases h : newObjectId id <;> cases df <;> simp [patchB, h]

theorem deleteB_state_listCache (st : StateB) (id : String) (df : Bool) :
    (deleteB st id df).state.listCache = st.listCache ∨
      (deleteB st id df).state.listCache = none := by
  cases h : newObjectId id <;> cases df <;> simp [deleteB, h]

theorem getAllC_state_listCache (st : StateC) (gf sf : Bool) :
    (getAllC st gf sf).state.listCache = st.listCache ∨
      (getAllC st gf sf).state.listCache =
        some ((findLimit10 st.store).map simplifyMovie) := by
  cases gf <;> cases sf <;> cases h : st.listCache <;> simp [getAllC, h]

theorem getByIdC_state_listCache (st : StateC) (id : String) (gf sf : Bool) :
    (getByIdC st id gf sf).state.listCache = st.listCache := by
  cases gf with
  | true => simp [getByIdC]
  | false =>
    cases hc : cacheGet st.idCache id with
    | some v => simp [getByIdC, hc]
    | none =>
      cases h : newObjectId id with
      | error e => simp [getByIdC, hc, h]
      | ok oid =>
        cases hf : findOne st.store oid <;> cases sf <;>
          simp [getByIdC, hc, h, hf]

theorem patchC_state_listCache (st : StateC) (id t : String) (sf df : Bool) :
    (patchC st id t sf df).state.listCache = st.listCache ∨
      (patchC st id t sf df).state.listCache = none := by
  cases h : newObjectId id with
  | error e => simp [patchC, h]
  | ok oid =>
    by_cases hm : (updateOneTitle st.store oid t).2.matchedCount > 0
    · cases hf : findOne (updateOneTitle st.store oid t).1 oid <;> cases df <;>
        simp [patchC, h, hm, hf]
    · simp [patchC, h, hm]

theorem deleteC_state_listCache (st : StateC) (id : String) (df1 df2 : Bool) :
    (deleteC st id df1 df2).state.listCache = st.listCache ∨
      (deleteC st id df1 df2).state.listCache = none := by
  cases h : newObjectId id <;> cases df2 <;> simp [deleteC, h]

/-- Invariant of variant B: any cached list was populated from a limit-10
query, so it holds at most 10 documents. -/
theorem ReachB_listCache_len (st : StateB) (h : ReachB st) :
    ∀ l, st.listCache = some l → l.length ≤ 10 := by
  induction h with
  | init s => intro l hl; simp at hl
  | stepGetAll st gf sf _ ih =>
    intro l hl
    rcases getAllB_state_listCache st gf sf with he | he
    · exact ih l (he ▸ hl)
    · rw [he] at hl
      injection hl with hl
      subst hl
      simp [findLimit10]
  | stepGetById st id _ ih =>
    intro l hl
    exact ih l ((getByIdB_state st id) ▸ hl)
  | stepPatch st id t df _ ih =>
    intro l hl
    rcases patchB_state_listCache st id t df with he | he
    · exact ih l (he ▸ hl)
    · rw [he] at hl; simp at hl
  | stepDelete st id df _ ih =>
    intro l hl
    rcases deleteB_state_listCache st id df with he | he
    · exact ih l (he ▸ hl)
    · rw [he] at hl; simp at hl
  | externalStore st s _ ih =>
    intro l hl
    exact ih l hl

/-- Invariant of variant C: any cached simplified list was populated from a
limit-10 query, so it holds at most 10 entries. -/
theorem ReachC_listCache_len (st : StateC) (h : ReachC st) :
    ∀ l, st.listCache = some l → l.length ≤ 10 := by
  induction h with
  | init s => intro l hl; simp at hl
  | stepGetAll st gf sf _ ih =>
    intro l hl
    rcases getAllC_state_listCache st gf sf with he | he
    · exact ih l (he ▸ hl)
    · rw [he] at hl
      injection hl with hl
      subst hl
      simp [findLimit10]
  | stepGetById st id gf sf _ ih =>
    intro l hl
    exact ih l ((getByIdC_state_listCache st id gf sf) ▸ hl)
  | stepPatch st id t sf df _ ih =>
    intro l hl
    rcases patchC_state_listCache st id t sf df with he | he
    · exact ih l (he ▸ hl)
    · rw [he] at hl; simp at hl
  | stepDelete st id df1 df2 _ ih =>
    intro l hl
    rcases deleteC_state_listCache st id df1 df2 with he | he
    · exact ih l (he ▸ hl)
    · rw [he] at hl; simp at hl
  | externalStore st s _ ih =>
    intro l hl
    exact ih l hl

/-! ## Claims -/

/-- C6: for every call to the list-movies handler: if the list cache key is
set, the handler returns the cached serialized list verbatim without
querying the store; if it is unset, it queries the store for at most 10
documents, optionally maps each to the simplified projection `{id, name,
title}` (in `redisServer.js`; `part_000` caches the raw documents), stores
the serialized result under the list key, and returns that result. -/
theorem C6_list_handler (stB : StateB) (stC : StateC) :
    (∀ l, stB.listCache = some l →
        getAllB stB false false = ⟨⟨200, .rawMovies l⟩, stB, 0⟩) ∧
    (stB.listCache = none →
        getAllB stB false false =
          ⟨⟨200, .rawMovies (findLimit10 stB.store)⟩,
            ⟨stB.store, some (findLimit10 stB.store)⟩, 1⟩) ∧
    (∀ l, stC.listCache = some l →
        getAllC stC false false = ⟨⟨200, .sMovies l⟩, stC, 0⟩) ∧
    (stC.listCache = none →
        getAllC stC false false =
          ⟨⟨200, .sMovies ((findLimit10 stC.store).map simplifyMovie)⟩,
            ⟨stC.store, some ((findLimit10 stC.store).map simplifyMovie),
              stC.idCache⟩, 1⟩) := by
  refine ⟨?_, ?_, ?_, ?_⟩
  · intro l hl; simp [getAllB, hl]
  · intro hl; simp [getAllB, hl]
  · intro l hl; simp [getAllC, hl]
  · intro hl; simp [getAllC, hl]

/-- Witness for C6 at concrete states: a cache hit is served verbatim with
no store query, and a cache miss populates the list key. -/
theorem C6_witness :
    getAllB ⟨[mA], some [mB]⟩ false false =
      ⟨⟨200, .rawMovies [mB]⟩, ⟨[mA], some [mB]⟩, 0⟩ ∧
    getAllC ⟨[mA], none, []⟩ false false =
      ⟨⟨200, .sMovies [simplifyMovie mA]⟩,
        ⟨[mA], some [simplifyMovie mA], []⟩, 1⟩ := by
  have h := C6_list_handler ⟨[mA], some [mB]⟩ ⟨[mA], none, []⟩
  exact ⟨h.1 [mB] rfl, h.2.2.2 rfl⟩

/-- C7: in both caching variants, an error from the Redis `get` on the list
key is propagated via `next(err)` — the request fails with the rendered
error page (status 500) — and the store is never queried as a fallback. -/
theorem C7_cache_read_error (stB : StateB) (stC : StateC) (sfB sfC : Bool) :
    getAllB stB true sfB = ⟨⟨500, .errorPage⟩, stB, 0⟩ ∧
    getAllC stC true sfC = ⟨⟨500, .errorPage⟩, stC, 0⟩ :=
  ⟨rfl, rfl⟩

/-- C8: in every reachable state of store and cache, the list-movies
endpoint of every variant responds with at most 10 entries — on the
cache-hit path because cached list values are only ever populated from
limit-10 store queries. -/
theorem C8_list_at_most_10 (storeA : Store) (stB : StateB) (stC : StateC)
    (gfB sfB gfC sfC : Bool) (hB : ReachB stB) (hC : ReachC stC) :
    (∀ l, (getAllA storeA).resp.body = .rawMovies l → l.length ≤ 10) ∧
    (∀ l, (getAllB stB gfB sfB).resp.body = .rawMovies l → l.length ≤ 10) ∧
    (∀ l, (getAllC stC gfC sfC).resp.body = .sMovies l → l.length ≤ 10) := by
  refine ⟨?_, ?_, ?_⟩
  · intro l hl
    simp only [getAllA] at hl
    injection hl with hl
    subst hl
    simp [findLimit10]
  · intro l hl
    cases gfB with
    | true => simp [getAllB] at hl
    | false =>
      cases hc : stB.listCache with
      | some c =>
        simp only [getAllB, hc] at hl
        simp at hl
        subst hl
        exact ReachB_listCache_len stB hB c hc
      | none =>
        simp only [getAllB, hc] at hl
        simp at hl
        subst hl
        simp [findLimit10]
  · intro l hl
    cases gfC with
    | true => simp [getAllC] at hl
    | false =>
      cases hc : stC.listCache with
      | some c =>
        simp only [getAllC, hc] at hl
        simp at hl
        subst hl
        exact ReachC_listCache_len stC hC c hc
      | none =>
        simp only [getAllC, hc] at hl
        simp at hl
        subst hl
        simp [findLimit10]

/-- Witness for C8: starting from a cold cache over a 12-movie store, one
list request populates the cache; the cached response it serves has at most
10 entries. -/
theorem C8_witness :
    (findLimit10 bigStore).length ≤ 10 :=
  (C8_list_at_most_10 bigStore
      (getAllB ⟨bigStore, none⟩ false false).state ⟨[], none, []⟩
      false false false false
      (ReachB.stepGetAll ⟨bigStore, none⟩ false false (ReachB.init bigStore))
      (ReachC.init [])).2.1
    (findLimit10 bigStore) rfl

/-- C9: for a well-formed identifier matching no document, the update and
delete handlers of every variant respond with status 200 and the driver's
raw result summary (`matchedCount`/`modifiedCount`/`deletedCount` all 0),
not with a 404. -/
theorem C9_no_match_mutations (storeA : Store) (stB : StateB) (stC : StateC)
    (id t : String) (hv : isValidObjectId id = true)
    (hA : findOne storeA id = none) (hB : findOne stB.store id = none)
    (hC : findOne stC.store id = none) :
    patchA storeA id t = ⟨⟨200, .updateRes ⟨0, 0⟩⟩, storeA, 1⟩ ∧
    deleteA storeA id = ⟨⟨200, .deleteRes ⟨0⟩⟩, storeA, 1⟩ ∧
    (patchB stB id t false).resp = ⟨200, .updateRes ⟨0, 0⟩⟩ ∧
    (deleteB stB id false).resp = ⟨200, .deleteRes ⟨0⟩⟩ ∧
    (patchC stC id t false false).resp = ⟨200, .updateRes ⟨0, 0⟩⟩ ∧
    (deleteC stC id false false).resp = ⟨200, .deleteRes ⟨0⟩⟩ := by
  refine ⟨?_, ?_, ?_, ?_, ?_, ?_⟩
  · simp [patchA, newObjectId_ok _ hv, updateOneTitle_not_found _ _ _ hA]
  · simp [deleteA, newObjectId_ok _ hv, deleteOne_not_found _ _ hA]
  · simp [patchB, newObjectId_ok _ hv, updateOneTitle_not_found _ _ _ hB]
  · simp [deleteB, newObjectId_ok _ hv, deleteOne_not_found _ _ hB]
  · simp [patchC, newObjectId_ok _ hv, updateOneTitle_not_found _ _ _ hC]
  · simp [deleteC, newObjectId_ok _ hv, deleteOne_not_found _ _ hC]

/-- Witness for C9: patching and deleting a valid id over an empty store
answers 200 with zero counts. -/
theorem C9_witness :
    (patchC ⟨[], none, []⟩ idA "T" false false).resp = ⟨200, .updateRes ⟨0, 0⟩⟩ ∧
    (deleteB ⟨[], none⟩ idA false).resp = ⟨200, .deleteRes ⟨0⟩⟩ := by
  have h := C9_no_match_mutations [] ⟨[], none⟩ ⟨[], none, []⟩ idA "T"
    (by decide) rfl rfl rfl
  exact ⟨h.2.2.2.2.1, h.2.2.2.1⟩

/-- C10: a failing Redis `set` after a successful store fetch never fails
the request: the response is identical to the one sent when the `set`
succeeds (status 200 with the fetched data on the miss path), and the cache
is simply left unwritten. -/
theorem C10_cache_set_failure (stB : StateB) (stC : StateC) (id : String) :
    (getAllB stB false true).resp = (getAllB stB false false).resp ∧
    (stB.listCache = none →
      (getAllB stB false true).state = stB ∧
      (getAllB stB false true).resp = ⟨200, .rawMovies (findLimit10 stB.store)⟩) ∧
    (getAllC stC false true).resp = (getAllC stC false false).resp ∧
    (stC.listCache = none →
      (getAllC stC false true).state = stC ∧
      (getAllC stC false true).resp =
        ⟨200, .sMovies ((findLimit10 stC.store).map simplifyMovie)⟩) ∧
    (getByIdC stC id false true).resp = (getByIdC stC id false false).resp ∧
    (∀ m, cacheGet stC.idCache id = none → isValidObjectId id = true →
      findOne stC.store id = some m →
      (getByIdC stC id false true).state = stC ∧
      (getByIdC stC id false true).resp = ⟨200, .sMovie (simplifyMovie m)⟩) := by
  refine ⟨?_, ?_, ?_, ?_, ?_, ?_⟩
  · cases hc : stB.listCache <;> simp [getAllB, hc]
  · intro hc; simp [getAllB, hc]
  · cases hc : stC.listCache <;> simp [getAllC, hc]
  · intro hc; simp [getAllC, hc]
  · cases hc : cacheGet stC.idCache id with
    | some v => simp [getByIdC, hc]
    | none =>
      cases ho : newObjectId id with
      | error e => simp [getByIdC, hc, ho]
      | ok oid => cases hf : findOne stC.store oid <;> simp [getByIdC, hc, ho, hf]
  · intro m hc hv hf
    simp [getByIdC, hc, newObjectId_ok _ hv, hf]

/-- Witness for C10: with a failing `set`, the list and per-ID read paths
still answer 200 with the fetched data and leave the cache unchanged. -/
theorem C10_witness :
    (getAllB ⟨[mA], none⟩ false true).resp = ⟨200, .rawMovies [mA]⟩ ∧
    (getByIdC ⟨[mA], none, []⟩ idA false true).resp =
      ⟨200, .sMovie (simplifyMovie mA)⟩ ∧
    (getByIdC ⟨[mA], none, []⟩ idA false true).state = ⟨[mA], none, []⟩ := by
  have h := C10_cache_set_failure ⟨[mA], none⟩ ⟨[mA], none, []⟩ idA
  have h2 := h.2.2.2.2.2 mA rfl (by decide) rfl
  exact ⟨(h.2.1 rfl).2, h2.2, h2.1⟩

/-- C1 counterexample: in `redisServer.js`, a successful matched update
(status 200, the store now holds the new title) leaves a per-ID cache entry
for the movie in place — the handler overwrites `movie:<id>` instead of
deleting it — so not every cache entry referencing the movie is
invalidated (deleted). -/
theorem C1_counterexample :
    (patchC ⟨[mA], some [simplifyMovie mA], [(idA, simplifyMovie mA)]⟩ idA
        "New Title" false false).resp.status = 200 ∧
    (patchC ⟨[mA], some [simplifyMovie mA], [(idA, simplifyMovie mA)]⟩ idA
        "New Title" false false).state.store = [⟨idA, "Alpha", "New Title"⟩] ∧
    cacheGet (patchC ⟨[mA], some [simplifyMovie mA], [(idA, simplifyMovie mA)]⟩
        idA "New Title" false false).state.idCache idA ≠ none := by
  decide

/-- C1 (amended): on any successful mutation (with the Redis operations
succeeding), `part_000` deletes its only cache key (the list key)
unconditionally on update and delete; `redisServer.js` deletes both the
per-ID key and the list key on delete, while on an update that matched a
document it deletes the list key but *overwrites* the per-ID key with the
freshly fetched projection (write-through) instead of deleting it, and on
an update that matched nothing it touches no cache key at all. -/
theorem C1_invalidation_behavior (stB : StateB) (stC : StateC) (id t : String)
    (hv : isValidObjectId id = true) :
    (patchB stB id t false).state.listCache = none ∧
    (deleteB stB id false).state.listCache = none ∧
    (deleteC stC id false false).state.listCache = none ∧
    cacheGet (deleteC stC id false false).state.idCache id = none ∧
    (∀ m, findOne stC.store id = some m →
      (patchC stC id t false false).state.listCache = none ∧
      cacheGet (patchC stC id t false false).state.idCache id =
        some (simplifyMovie { m with title := t })) ∧
    (findOne stC.store id = none →
      (patchC stC id t false false).state =
        ⟨stC.store, stC.listCache, stC.idCache⟩) := by
  refine ⟨?_, ?_, ?_, ?_, ?_, ?_⟩
  · simp [patchB, newObjectId_ok _ hv]
  · simp [deleteB, newObjectId_ok _ hv]
  · simp [deleteC, newObjectId_ok _ hv]
  · simp [deleteC, newObjectId_ok _ hv, cacheGet_cacheDel_self]
  · intro m hm
    obtain ⟨h1, h2⟩ := findOne_updateOneTitle stC.store id t m hm
    simp [patchC, newObjectId_ok _ hv, h1, h2, cacheGet_cacheSet_self]
  · intro hm
    simp [patchC, newObjectId_ok _ hv, updateOneTitle_not_found _ _ _ hm]

/-- Witness for C1 (amended): concrete update and delete runs showing the
list key invalidated and, in `redisServer.js`, the per-ID key rewritten. -/
theorem C1_witness :
    (patchB ⟨[mA], some [mA]⟩ idA "New" false).state.listCache = none ∧
    cacheGet (deleteC ⟨[mA], none, [(idA, simplifyMovie mA)]⟩ idA false
        false).state.idCache idA = none ∧
    cacheGet (patchC ⟨[mA], none, []⟩ idA "New" false false).state.idCache idA =
      some ⟨idA, "Alpha", "New"⟩ := by
  have h := C1_invalidation_behavior ⟨[mA], some [mA]⟩
    ⟨[mA], none, [(idA, simplifyMovie mA)]⟩ idA "New" (by decide)
  have h2 := C1_invalidation_behavior ⟨[mA], some [mA]⟩ ⟨[mA], none, []⟩ idA
    "New" (by decide)
  exact ⟨h.1, h.2.2.2.1, (h2.2.2.2.2.1 mA rfl).2⟩

/-- C2: in every variant, once the update handler has set a new title for a
present movie (the Redis operations succeeding), the next get-by-ID
response for that movie carries the new title — baseline and `part_000`
because the read goes to the store, `redisServer.js` because the update
wrote the fresh projection through to the per-ID key. -/
theorem C2_update_then_get (storeA : Store) (stB : StateB) (stC : StateC)
    (id t : String) (hv : isValidObjectId id = true)
    (m1 : Movie) (hA : findOne storeA id = some m1)
    (m2 : Movie) (hB : findOne stB.store id = some m2)
    (m3 : Movie) (hC : findOne stC.store id = some m3) :
    (getByIdA (patchA storeA id t).store id).resp =
      ⟨200, .rawMovie { m1 with title := t }⟩ ∧
    (getByIdB (patchB stB id t false).state id).resp =
      ⟨200, .rawMovie { m2 with title := t }⟩ ∧
    (getByIdC (patchC stC id t false false).state id false false).resp =
      ⟨200, .sMovie (simplifyMovie { m3 with title := t })⟩ := by
  obtain ⟨hm1, hf1⟩ := findOne_updateOneTitle storeA id t m1 hA
  obtain ⟨hm2, hf2⟩ := findOne_updateOneTitle stB.store id t m2 hB
  obtain ⟨hm3, hf3⟩ := findOne_updateOneTitle stC.store id t m3 hC
  refine ⟨?_, ?_, ?_⟩
  · have hst : (patchA storeA id t).store = (updateOneTitle storeA id t).1 := by
      simp [patchA, newObjectId_ok _ hv]
    rw [hst]
    simp [getByIdA, newObjectId_ok _ hv, hf1]
  · have hst : (patchB stB id t false).state.store =
        (updateOneTitle stB.store id t).1 := by
      simp [patchB, newObjectId_ok _ hv]
    simp [getByIdB, newObjectId_ok _ hv, hst, hf2]
  · have hst : (patchC stC id t false false).state =
        ⟨(updateOneTitle stC.store id t).1, none,
          cacheSet stC.idCache id (simplifyMovie { m3 with title := t })⟩ := by
      simp [patchC, newObjectId_ok _ hv, hm3, hf3]
    rw [hst]
    simp [getByIdC, cacheGet_cacheSet_self]

/-- Witness for C2: updating the only movie's title and reading it back
yields the new title, in all three variants. -/
theorem C2_witness :
    (getByIdA (patchA [mA] idA "New").store idA).resp =
      ⟨200, .rawMovie ⟨idA, "Alpha", "New"⟩⟩ ∧
    (getByIdB (patchB ⟨[mA], none⟩ idA "New" false).state idA).resp =
      ⟨200, .rawMovie ⟨idA, "Alpha", "New"⟩⟩ ∧
    (getByIdC (patchC ⟨[mA], none, []⟩ idA "New" false false).state idA
        false false).resp = ⟨200, .sMovie ⟨idA, "Alpha", "New"⟩⟩ := by
  have h := C2_update_then_get [mA] ⟨[mA], none⟩ ⟨[mA], none, []⟩ idA "New"
    (by decide) mA rfl mA rfl mA rfl
  exact ⟨h.1, h.2.1, h.2.2⟩

/-- C3: in every variant (stored ids being unique and the Redis operations
succeeding), after the delete handler runs for a movie, the next get-by-ID
for that identifier answers 404 "Not found" — in `redisServer.js` because
the delete removed the per-ID cache entry before the read. -/
theorem C3_delete_then_get (storeA : Store) (stB : StateB) (stC : StateC)
    (id : String) (hv : isValidObjectId id = true)
    (hA : (storeA.map Movie.oid).Nodup)
    (hB : (stB.store.map Movie.oid).Nodup)
    (hC : (stC.store.map Movie.oid).Nodup) :
    (getByIdA (deleteA storeA id).store id).resp = ⟨404, .text "Not found"⟩ ∧
    (getByIdB (deleteB stB id false).state id).resp = ⟨404, .text "Not found"⟩ ∧
    (getByIdC (deleteC stC id false false).state id false false).resp =
      ⟨404, .text "Not found"⟩ := by
  refine ⟨?_, ?_, ?_⟩
  · have hst : (deleteA storeA id).store = (deleteOne storeA id).1 := by
      simp [deleteA, newObjectId_ok _ hv]
    rw [hst]
    simp [getByIdA, newObjectId_ok _ hv, findOne_deleteOne storeA id hA]
  · have hst : (deleteB stB id false).state.store = (deleteOne stB.store id).1 := by
      simp [deleteB, newObjectId_ok _ hv]
    simp [getByIdB, newObjectId_ok _ hv, hst, findOne_deleteOne stB.store id hB]
  · have hst : (deleteC stC id false false).state =
        ⟨(deleteOne stC.store id).1, none, cacheDel stC.idCache id⟩ := by
      simp [deleteC, newObjectId_ok _ hv]
    rw [hst]
    simp [getByIdC, cacheGet_cacheDel_self, newObjectId_ok _ hv,
      findOne_deleteOne stC.store id hC]

/-- Witness for C3: deleting the only movie then reading it back answers
404 in all three variants. -/
theorem C3_witness :
    (getByIdA (deleteA [mA] idA).store idA).resp = ⟨404, .text "Not found"⟩ ∧
    (getByIdB (deleteB ⟨[mA], none⟩ idA false).state idA).resp =
      ⟨404, .text "Not found"⟩ ∧
    (getByIdC (deleteC ⟨[mA], none, [(idA, simplifyMovie mA)]⟩ idA false
        false).state idA false false).resp = ⟨404, .text "Not found"⟩ := by
  have h := C3_delete_then_get [mA] ⟨[mA], none⟩
    ⟨[mA], none, [(idA, simplifyMovie mA)]⟩ idA (by decide)
    (by simp) (by simp) (by simp)
  exact ⟨h.1, h.2.1, h.2.2⟩

/-- C4 counterexample: in the baseline variant, a non-parseable identifier
on get-by-ID produces status 500 (the `catch` block's JSON error body), a
server error, not a client error (4xx). -/
theorem C4_counterexample :
    (getByIdA [mA] "xyz").resp.status = 500 ∧
    ¬(400 ≤ (getByIdA [mA] "xyz").resp.status ∧
      (getByIdA [mA] "xyz").resp.status < 500) := by
  decide

/-- C4 (amended): a non-parseable identifier never crashes the process in
the handlers whose `try` covers the `new ObjectId` call — they all respond
500 with the `BSONError` message as a JSON error body; only
`redisServer.js`'s get-by-ID handler parses inside the async Redis
callback, where the throw escapes the `try` as an unhandled promise
rejection and no response is sent. -/
theorem C4_invalid_id_behavior (storeA : Store) (stB : StateB) (stC : StateC)
    (id t : String) (hv : isValidObjectId id = false) :
    (getByIdA storeA id).resp = ⟨500, .errMsg bsonErrMsg⟩ ∧
    (patchA storeA id t).resp = ⟨500, .errMsg bsonErrMsg⟩ ∧
    (deleteA storeA id).resp = ⟨500, .errMsg bsonErrMsg⟩ ∧
    (getByIdB stB id).resp = ⟨500, .errMsg bsonErrMsg⟩ ∧
    (patchB stB id t false).resp = ⟨500, .errMsg bsonErrMsg⟩ ∧
    (deleteB stB id false).resp = ⟨500, .errMsg bsonErrMsg⟩ ∧
    (patchC stC id t false false).resp = ⟨500, .errMsg bsonErrMsg⟩ ∧
    (deleteC stC id false false).resp = ⟨500, .errMsg bsonErrMsg⟩ ∧
    (cacheGet stC.idCache id = none →
      (getByIdC stC id false false).resp = ⟨0, .unhandledRejection bsonErrMsg⟩) := by
  refine ⟨?_, ?_, ?_, ?_, ?_, ?_, ?_, ?_, ?_⟩
  · simp [getByIdA, newObjectId_error _ hv]
  · simp [patchA, newObjectId_error _ hv]
  · simp [deleteA, newObjectId_error _ hv]
  · simp [getByIdB, newObjectId_error _ hv]
  · simp [patchB, newObjectId_error _ hv]
  · simp [deleteB, newObjectId_error _ hv]
  · simp [patchC, newObjectId_error _ hv]
  · simp [deleteC, newObjectId_error _ hv]
  · intro hc
    simp [getByIdC, hc, newObjectId_error _ hv]

/-- Witness for C4 (amended): the identifier `"xyz"` yields 500 everywhere
the parse is caught, and no response in `redisServer.js`'s get-by-ID. -/
theorem C4_witness :
    (patchB ⟨[mA], none⟩ "xyz" "T" false).resp = ⟨500, .errMsg bsonErrMsg⟩ ∧
    (getByIdC ⟨[mA], none, []⟩ "xyz" false false).resp =
      ⟨0, .unhandledRejection bsonErrMsg⟩ := by
  have h := C4_invalid_id_behavior [mA] ⟨[mA], none⟩ ⟨[mA], none, []⟩ "xyz" "T"
    (by decide)
  exact ⟨h.2.2.2.2.1, h.2.2.2.2.2.2.2.2 rfl⟩

/-- C5 counterexample: in the baseline variant a present movie is never
cached — a second get-by-ID call for the same identifier performs a store
query again (`storeQueries = 1`, not 0). -/
theorem C5_counterexample :
    (getByIdA [mA] idA).resp = ⟨200, .rawMovie mA⟩ ∧
    (getByIdA [mA] idA).store = [mA] ∧
    (getByIdA (getByIdA [mA] idA).store idA).storeQueries = 1 := by
  decide

/-- C5 (amended): only `redisServer.js` has a per-ID cache: there, a first
get-by-ID on a valid, present, uncached identifier returns the simplified
document with one store query and caches it, and a second call returns the
identical cached value with zero store queries and an unchanged state.  The
baseline and `part_000` get-by-ID handlers query the store on every call
and never touch a cache. -/
theorem C5_per_item_caching (storeA : Store) (stB : StateB) (stC : StateC)
    (id : String) (hv : isValidObjectId id = true)
    (m : Movie) (hC : findOne stC.store id = some m)
    (hmiss : cacheGet stC.idCache id = none)
    (m1 : Movie) (hA : findOne storeA id = some m1)
    (m2 : Movie) (hB : findOne stB.store id = some m2) :
    (getByIdC stC id false false).resp = ⟨200, .sMovie (simplifyMovie m)⟩ ∧
    (getByIdC stC id false false).storeQueries = 1 ∧
    cacheGet (getByIdC stC id false false).state.idCache id =
      some (simplifyMovie m) ∧
    (getByIdC (getByIdC stC id false false).state id false false).resp =
      ⟨200, .sMovie (simplifyMovie m)⟩ ∧
    (getByIdC (getByIdC stC id false false).state id false false).storeQueries
      = 0 ∧
    (getByIdC (getByIdC stC id false false).state id false false).state =
      (getByIdC stC id false false).state ∧
    (getByIdA storeA id).storeQueries = 1 ∧
    (getByIdA storeA id).store = storeA ∧
    (getByIdB stB id).storeQueries = 1 ∧
    (getByIdB stB id).state = stB := by
  have hst : (getByIdC stC id false false).state =
      ⟨stC.store, stC.listCache, cacheSet stC.idCache id (simplifyMovie m)⟩ := by
    simp [getByIdC, hmiss, newObjectId_ok _ hv, hC]
  refine ⟨?_, ?_, ?_, ?_, ?_, ?_, ?_, ?_, ?_, ?_⟩
  · simp [getByIdC, hmiss, newObjectId_ok _ hv, hC]
  · simp [getByIdC, hmiss, newObjectId_ok _ hv, hC]
  · rw [hst]; exact cacheGet_cacheSet_self stC.idCache id (simplifyMovie m)
  · rw [hst]; simp [getByIdC, cacheGet_cacheSet_self]
  · rw [hst]; simp [getByIdC, cacheGet_cacheSet_self]
  · rw [hst]; simp [getByIdC, cacheGet_cacheSet_self]
  · simp [getByIdA, newObjectId_ok _ hv, hA]
  · simp [getByIdA, newObjectId_ok _ hv, hA]
  · simp [getByIdB, newObjectId_ok _ hv, hB]
  · exact getByIdB_state stB id

/-- Witness for C5 (amended): two reads of the only movie through
`redisServer.js`, the second one served from the cache with no store
query. -/
theorem C5_witness :
    (getByIdC ⟨[mA], none, []⟩ idA false false).resp =
      ⟨200, .sMovie (simplifyMovie mA)⟩ ∧
    (getByIdC (getByIdC ⟨[mA], none, []⟩ idA false false).state idA false
        false).storeQueries = 0 ∧
    (getByIdA [mA] idA).storeQueries = 1 := by
  have h := C5_per_item_caching [mA] ⟨[mA], none⟩ ⟨[mA], none, []⟩ idA
    (by decide) mA rfl rfl mA rfl mA rfl
  exact ⟨h.1, h.2.2.2.2.1, h.2.2.2.2.2.2.1⟩
